import Mathlib

/-!
Shallow embedding of the Beamer glare pipeline (beamer-server).

Sources embedded:
  * glare_index.py  — clipping, angular difference, naive-datetime check,
    solar adapter, elevation/heading sensitivity terms, glare_score.
  * server.py       — practical_* parameter variants, the /api/analyze-glare
    distance-density sampler and its statistics.
  * route_visualization.py — run_glare_simulation_with_durations, the
    duration-per-segment sampler.

Python floats are modelled as rationals (ℚ); machine ints as ℤ/ℕ.
The external solar-position functions (pysolar get_azimuth / get_altitude)
and the trigonometric bearing computation are transcendental black boxes:
they are passed as explicit function parameters, exactly as the spec treats
the Solar Position Function as an external collaborator and as the
duration sampler already takes its `scorer` as a parameter.
-/

namespace Beamer

/-- Python's `max(a, min(b, x))` as used by `_clip` with defaults a = 0, b = 1. -/
def _clip (x : ℚ) : ℚ := max 0 (min 1 x)

/-- Python float `%` with a positive modulus: `x % m = x - m * floor (x / m)`,
which lies in `[0, m)` for `m > 0`. -/
def pymod (x m : ℚ) : ℚ := x - m * ⌊x / m⌋

/-- Python `int(x)` on a float: truncation toward zero. -/
def pytrunc (x : ℚ) : ℤ := if 0 ≤ x then ⌊x⌋ else ⌈x⌉

/-- Python 3 `round(x)` to an integer: round half to even (banker's rounding). -/
def pyround (x : ℚ) : ℤ :=
  let f : ℤ := ⌊x⌋
  let frac : ℚ := x - f
  if frac < 1/2 then f
  else if 1/2 < frac then f + 1
  else if f % 2 = 0 then f else f + 1

/-- A Python `datetime`: wall-clock seconds plus an optional UTC offset in
seconds (`tzOffset = none` models `tzinfo is None`, a naive datetime). -/
structure PyDatetime where
  naive : ℚ
  tzOffset : Option ℚ
  deriving Repr, DecidableEq

/-- `t + timedelta(seconds = s)`. -/
def PyDatetime.addSeconds (t : PyDatetime) (s : ℚ) : PyDatetime :=
  ⟨t.naive + s, t.tzOffset⟩

/-- The absolute instant (seconds since epoch, UTC) an aware datetime denotes. -/
def PyDatetime.absSeconds (t : PyDatetime) : ℚ :=
  t.naive - t.tzOffset.getD 0

/-! ## glare_index.py -/

def THETA_H : ℚ := 25
def THETA_E : ℚ := 15
def TAIL_E : ℚ := 10

/-- `_angdiff(a, b)`: `d = abs((a - b) % 360.0)`, then `d` if `d ≤ 180`
else `360 - d`. -/
def _angdiff (a b : ℚ) : ℚ :=
  let d := |pymod (a - b) 360|
  if d ≤ 180 then d else 360 - d

/-- `_to_utc`: raise when the datetime is naive, otherwise
`astimezone(timezone.utc)` — same absolute instant, offset zero. -/
def _to_utc (t : PyDatetime) : Except String PyDatetime :=
  match t.tzOffset with
  | none => .error "`when` must be timezone-aware"
  | some off => .ok ⟨t.naive - off, some 0⟩

/-- The external solar-position functions (pysolar `get_azimuth`,
`get_altitude`): latitude, longitude, UTC seconds ↦ degrees. -/
def SolarFn : Type := ℚ → ℚ → ℚ → ℚ

/-- `_solar`: convert to UTC, query the external functions, normalize the
azimuth into `[0, 360)` by `% 360.0`. -/
def _solar (getAz getAlt : SolarFn) (lat lon : ℚ) (when : PyDatetime) :
    Except String (ℚ × ℚ) :=
  match _to_utc when with
  | .error e => .error e
  | .ok tUtc => .ok (pymod (getAz lat lon tUtc.naive) 360, getAlt lat lon tUtc.naive)

/-- `_elev_term`: 0 below the horizon, otherwise a primary ramp
`clip(1 - el/THETA_E)` plus a tail of up to 0.35 fading over
`(THETA_E, THETA_E + TAIL_E)`, clipped. -/
def _elev_term (el : ℚ) : ℚ :=
  if el ≤ 0 then 0
  else
    let primary := _clip (1 - el / THETA_E)
    let tail := if THETA_E < el ∧ el < THETA_E + TAIL_E
      then (1 - (el - THETA_E) / TAIL_E) * 0.35 else 0
    _clip (primary + tail)

/-- `_heading_term`: 0 for `delta ≥ THETA_H`, else a clipped quadratic falloff. -/
def _heading_term (delta : ℚ) : ℚ :=
  if THETA_H ≤ delta then 0
  else _clip (1 - (delta / THETA_H) ^ 2)

/-- The dictionary `glare_score` returns. -/
structure GlareOut where
  score : ℚ
  azimuth_deg : ℚ
  elevation_deg : ℚ
  delta_heading_deg : ℚ
  deriving Repr, DecidableEq

/-- The body of `glare_score` after `_solar` has produced `(az, el)`. -/
def glareScoreAux (azel : ℚ × ℚ) (heading_deg : ℚ) : GlareOut :=
  let elev := _elev_term azel.2
  let delta := _angdiff azel.1 heading_deg
  let head := _heading_term delta
  { score := _clip (elev * head)
    azimuth_deg := azel.1
    elevation_deg := azel.2
    delta_heading_deg := delta }

/-- `glare_score(lat, lon, when, heading_deg)`. -/
def glare_score (getAz getAlt : SolarFn) (lat lon : ℚ) (when : PyDatetime)
    (heading_deg : ℚ) : Except String GlareOut :=
  match _solar getAz getAlt lat lon when with
  | .error e => .error e
  | .ok azel => .ok (glareScoreAux azel heading_deg)

/-! ## server.py — practical parameter variants -/

def PRACTICAL_THETA_H : ℚ := 60
def PRACTICAL_THETA_E : ℚ := 20

/-- `practical_heading_term`: the heading term with the wider azimuth range. -/
def practical_heading_term (delta : ℚ) : ℚ :=
  if PRACTICAL_THETA_H ≤ delta then 0
  else _clip (1 - (delta / PRACTICAL_THETA_H) ^ 2)

/-- `practical_elev_term`: the elevation term with the practical range. -/
def practical_elev_term (el : ℚ) : ℚ :=
  if el ≤ 0 then 0
  else
    let primary := _clip (1 - el / PRACTICAL_THETA_E)
    let tail := if PRACTICAL_THETA_E < el ∧ el < PRACTICAL_THETA_E + 10
      then (1 - (el - PRACTICAL_THETA_E) / 10) * 0.35 else 0
    _clip (primary + tail)

/-- The dictionary `practical_glare_score` returns. -/
structure PracticalOut where
  score : ℚ
  azimuth_deg : ℚ
  elevation_deg : ℚ
  delta_heading_deg : ℚ
  elevation_term : ℚ
  heading_term : ℚ
  deriving Repr, DecidableEq

/-- The body of `practical_glare_score` after `_solar` has produced `(az, el)`. -/
def practicalGlareAux (azel : ℚ × ℚ) (heading_deg : ℚ) : PracticalOut :=
  let elev := practical_elev_term azel.2
  let delta := _angdiff azel.1 heading_deg
  let head := practical_heading_term delta
  { score := _clip (elev * head)
    azimuth_deg := azel.1
    elevation_deg := azel.2
    delta_heading_deg := delta
    elevation_term := elev
    heading_term := head }

/-- `practical_glare_score(lat, lon, when, heading_deg)`. -/
def practical_glare_score (getAz getAlt : SolarFn) (lat lon : ℚ)
    (when : PyDatetime) (heading_deg : ℚ) : Except String PracticalOut :=
  match _solar getAz getAlt lat lon when with
  | .error e => .error e
  | .ok azel => .ok (practicalGlareAux azel heading_deg)

/-- Total core of `practical_glare_score` on an instant taken as absolute:
used by the analyze-glare model, where the endpoint always attaches a
timezone before scoring; `practical_glare_score_aware` (below) shows it
agrees with `practical_glare_score` on every timezone-aware instant. -/
def practicalScoreAt (getAz getAlt : SolarFn) (lat lon : ℚ) (t : PyDatetime)
    (heading_deg : ℚ) : PracticalOut :=
  practicalGlareAux
    (pymod (getAz lat lon t.absSeconds) 360, getAlt lat lon t.absSeconds)
    heading_deg

/-! ## server.py — the /api/analyze-glare distance-density sampler

`calculate_heading` is a transcendental bearing computation (sin/cos/atan2);
it is passed as an explicit function parameter of type `HeadingFn`
(arguments lat1, lon1, lat2, lon2, result in degrees). -/

def HeadingFn : Type := ℚ → ℚ → ℚ → ℚ → ℚ

/-- `RoutePoint` of the analyze-glare request. -/
structure RoutePoint where
  lat : ℚ
  lng : ℚ
  deriving Repr, DecidableEq

/-- `RouteSegment` of the analyze-glare request (the `instruction` string is
display metadata, unused by the analysis, and omitted). -/
structure RouteSegment where
  points : List RoutePoint
  distance : ℚ
  duration : ℚ
  deriving Repr, DecidableEq

/-- `num_analysis_points = max(10, min(100, int(segment_distance / 50)))`. -/
def numAnalysisPoints (segment_distance : ℚ) : ℤ :=
  max 10 (min 100 (pytrunc (segment_distance / 50)))

/-- One iteration of the interpolation block of the analyze-glare loop:
from the segment's points and the loop's shared `ratio` value, produce the
interpolated point and its heading.  Python list indexing (always in range
here) is modelled by `getD`. -/
def interpOne (calcHeading : HeadingFn) (points : List RoutePoint)
    (frac : ℚ) : RoutePoint × ℚ :=
  if points.length = 1 then (points.getD 0 ⟨0, 0⟩, 0)
  else
    let n := points.length
    let polyIdx : ℤ := min (pytrunc (frac * ((n : ℚ) - 1))) ((n : ℤ) - 2)
    let localFrac : ℚ := frac * ((n : ℚ) - 1) - (polyIdx : ℚ)
    let p1 := points.getD polyIdx.toNat ⟨0, 0⟩
    let p2 := if polyIdx + 1 < (n : ℤ) then points.getD (polyIdx.toNat + 1) ⟨0, 0⟩
      else points.getD polyIdx.toNat ⟨0, 0⟩
    let lat := p1.lat + (p2.lat - p1.lat) * localFrac
    let lng := p1.lng + (p2.lng - p1.lng) * localFrac
    let heading :=
      if polyIdx + 1 < (n : ℤ) then calcHeading p1.lat p1.lng p2.lat p2.lng
      else if 0 < polyIdx then
        let pv := points.getD (polyIdx.toNat - 1) ⟨0, 0⟩
        calcHeading pv.lat pv.lng p1.lat p1.lng
      else 0
    (⟨lat, lng⟩, heading)

/-- A `GlarePoint` of the analyze-glare response.  The timestamp is kept as
the datetime itself rather than its ISO rendering; the derived display
`color` field (`score_to_color`) is presentation-only and omitted. -/
structure GlarePoint where
  lat : ℚ
  lng : ℚ
  time : PyDatetime
  glare_score : ℚ
  sun_azimuth : ℚ
  sun_elevation : ℚ
  heading : ℚ
  deriving Repr, DecidableEq

/-- The inner `for i in range(num_analysis_points)` loop for one segment
starting at time cursor `cursor`. -/
def segmentGlarePoints (calcHeading : HeadingFn) (getAz getAlt : SolarFn)
    (seg : RouteSegment) (cursor : PyDatetime) : List GlarePoint :=
  let n := (numAnalysisPoints seg.distance).toNat
  (List.range n).map fun (i : ℕ) =>
    let frac : ℚ := if 1 < n then (i : ℚ) / ((n : ℚ) - 1) else 0
    let ph := interpOne calcHeading seg.points frac
    let pointTime := cursor.addSeconds (frac * seg.duration)
    let g := practicalScoreAt getAz getAlt ph.1.lat ph.1.lng pointTime ph.2
    { lat := ph.1.lat
      lng := ph.1.lng
      time := pointTime
      glare_score := g.score
      sun_azimuth := g.azimuth_deg
      sun_elevation := g.elevation_deg
      heading := ph.2 }

/-- The outer `for segment in request.segments` loop.  A segment with no
points is skipped by `continue` — before the cursor advance at the end of
the loop body, so a skipped segment advances no time. -/
def analyzeGlarePoints (calcHeading : HeadingFn) (getAz getAlt : SolarFn) :
    List RouteSegment → PyDatetime → List GlarePoint
  | [], _ => []
  | seg :: rest, cursor =>
    if seg.points.length < 1 then
      analyzeGlarePoints calcHeading getAz getAlt rest cursor
    else
      segmentGlarePoints calcHeading getAz getAlt seg cursor ++
        analyzeGlarePoints calcHeading getAz getAlt rest
          (cursor.addSeconds seg.duration)

/-- Python `max(scores)` guarded by `if scores else 0.0`. -/
def pymax : List ℚ → ℚ
  | [] => 0
  | x :: xs => xs.foldl max x

/-- Python `min(scores)` guarded by `if scores else 0.0`. -/
def pymin : List ℚ → ℚ
  | [] => 0
  | x :: xs => xs.foldl min x

/-- The `stats` dictionary of the analyze-glare response (datetimes kept as
datetimes rather than ISO strings). -/
structure AnalyzeStats where
  total_points : ℕ
  max_glare : ℚ
  min_glare : ℚ
  avg_glare : ℚ
  high_glare_points : ℕ
  total_duration_minutes : ℚ
  departure_time : PyDatetime
  arrival_time : PyDatetime
  deriving Repr, DecidableEq

/-- The analyze-glare response body. -/
structure AnalyzeResult where
  glare_points : List GlarePoint
  statistics : AnalyzeStats
  deriving Repr, DecidableEq

/-- The computational content of the `/api/analyze-glare` endpoint
(`analyze_route_glare`) after the departure time has been parsed:
`total_duration` sums over all segments, the sampling loop runs, and the
statistics are computed from the collected points. -/
def analyze_route_glare (calcHeading : HeadingFn) (getAz getAlt : SolarFn)
    (segments : List RouteSegment) (departure : PyDatetime) : AnalyzeResult :=
  let total_duration := (segments.map (·.duration)).sum
  let pts := analyzeGlarePoints calcHeading getAz getAlt segments departure
  let scores := pts.map (·.glare_score)
  { glare_points := pts
    statistics :=
      { total_points := pts.length
        max_glare := pymax scores
        min_glare := pymin scores
        avg_glare := if scores.length ≠ 0 then scores.sum / scores.length else 0
        high_glare_points := (scores.filter (fun s => 0.7 < s)).length
        total_duration_minutes := total_duration / 60
        departure_time := departure
        arrival_time := departure.addSeconds total_duration } }

/-! ## route_visualization.py — the duration-per-segment sampler

`bearing_deg` is a transcendental bearing computation; like the scorer
(already a parameter in the source), it is passed as a `HeadingFn`. -/

/-- `Pt` of route_visualization.py. -/
structure Pt where
  lat : ℚ
  lon : ℚ
  deriving Repr, DecidableEq

/-- The scorer callback type: `(lat, lon, when, heading) -> dict` with the
four keys `run_glare_simulation_with_durations` reads. -/
def Scorer : Type := ℚ → ℚ → PyDatetime → ℚ → GlareOut

/-- One entry of each of the parallel output arrays of
`run_glare_simulation_with_durations` (the arrays are appended to in
lockstep, so the result is modelled as one list of samples). -/
structure SimSample where
  when : PyDatetime
  lat : ℚ
  lon : ℚ
  hdg : ℚ
  score : ℚ
  sun_az : ℚ
  sun_el : ℚ
  delta : ℚ
  deriving Repr, DecidableEq

/-- `seg_secs_total = max(1, int(round(segment_minutes[i] * 60)))`. -/
def segSecsOf (segMin : ℚ) : ℤ := max 1 (pyround (segMin * 60))

/-- `steps = max(1, seg_secs_total // max(1, int(step_seconds)))`. -/
def stepsOf (stepSeconds : ℤ) (segMin : ℚ) : ℤ :=
  max 1 (Int.fdiv (segSecsOf segMin) (max 1 stepSeconds))

/-- The `for i in range(len(route_points) - 1)` pairing of consecutive
route points with their per-segment minutes. -/
def segTriples : List Pt → List ℚ → List (Pt × Pt × ℚ)
  | p1 :: p2 :: ps, m :: ms => (p1, p2, m) :: segTriples (p2 :: ps) ms
  | _, _ => []

/-- The per-segment loop of `run_glare_simulation_with_durations`,
threading the `t_cursor` state; returns the collected samples and the
final cursor value. -/
def runSimAux (bearing : HeadingFn) (scorer : Scorer) (stepSeconds : ℤ) :
    List (Pt × Pt × ℚ) → PyDatetime → List SimSample × PyDatetime
  | [], cursor => ([], cursor)
  | (p1, p2, segMin) :: rest, cursor =>
    let segSecs := segSecsOf segMin
    let steps := stepsOf stepSeconds segMin
    let hdgSeg := bearing p1.lat p1.lon p2.lat p2.lon
    let segSamples := (List.range steps.toNat).map fun (k : ℕ) =>
      let r : ℚ := (k : ℚ) / ((max steps 1 : ℤ) : ℚ)
      let lat := p1.lat + (p2.lat - p1.lat) * r
      let lon := p1.lon + (p2.lon - p1.lon) * r
      let when := cursor.addSeconds ((k : ℚ) * (stepSeconds : ℚ))
      let res := scorer lat lon when hdgSeg
      SimSample.mk when lat lon hdgSeg res.score res.azimuth_deg
        res.elevation_deg res.delta_heading_deg
    let next := runSimAux bearing scorer stepSeconds rest
      (cursor.addSeconds (segSecs : ℚ))
    (segSamples ++ next.1, next.2)

/-- `run_glare_simulation_with_durations`: validation, per-segment loop,
then one final sample at the route end and final time. -/
def run_glare_simulation_with_durations (bearing : HeadingFn)
    (scorer : Scorer) (route_points : List Pt) (segment_minutes : List ℚ)
    (start_local : PyDatetime) (step_seconds : ℤ) :
    Except String (List SimSample) :=
  if route_points.length < 2 then
    .error "Need at least two route points"
  else if segment_minutes.length ≠ route_points.length - 1 then
    .error "segment_minutes must have length len(route_points)-1"
  else
    let out := runSimAux bearing scorer step_seconds
      (segTriples route_points segment_minutes) start_local
    let pf := route_points.getLast?.getD ⟨0, 0⟩
    let hdg_f := ((out.1.getLast?).map (·.hdg)).getD 0
    let when_f := out.2
    let res_f := scorer pf.lat pf.lon when_f hdg_f
    .ok (out.1 ++ [SimSample.mk when_f pf.lat pf.lon hdg_f res_f.score
      res_f.azimuth_deg res_f.elevation_deg res_f.delta_heading_deg])

/-! ## Definitions taken from the spec's wording (for refinement claims) -/

/-- Modelled from the spec: the `round` in
`num_points = clamp(round(distance_m / 50), 10, 100)` — rounding to the
nearest integer (the witnessed input below is not a half-integer, so the
tie-breaking convention is irrelevant). -/
def specRound (x : ℚ) : ℤ := ⌊x + 1/2⌋

/-- Total length of a polyline under a given edge-length function. -/
def polylineLen (edgeLen : RoutePoint → RoutePoint → ℚ) :
    List RoutePoint → ℚ
  | p :: q :: rest => edgeLen p q + polylineLen edgeLen (q :: rest)
  | _ => 0

/-- Walk a polyline for a given arc length and return the point reached. -/
def walkArc (edgeLen : RoutePoint → RoutePoint → ℚ) :
    List RoutePoint → ℚ → RoutePoint
  | [], _ => ⟨0, 0⟩
  | [p], _ => p
  | p :: q :: rest, d =>
    let L := edgeLen p q
    if d ≤ L then
      if L = 0 then p
      else ⟨p.lat + (q.lat - p.lat) * (d / L), p.lng + (q.lng - p.lng) * (d / L)⟩
    else walkArc edgeLen (q :: rest) (d - L)

/-- Modelled from the spec: the position at the arc-length-proportional
fraction `t` along a polyline — the point whose distance from the start
along the polyline is `t` times the total polyline length. -/
def arcLengthPos (edgeLen : RoutePoint → RoutePoint → ℚ)
    (points : List RoutePoint) (t : ℚ) : RoutePoint :=
  walkArc edgeLen points (t * polylineLen edgeLen points)

/-- Modelled from the spec: geodesic distance specialised to equatorial
points (latitude 0), where great-circle distance is proportional to the
longitude difference.  Used to exhibit concrete arc lengths without
transcendental functions. -/
def eqDist (p q : RoutePoint) : ℚ := |q.lng - p.lng|

/-- The index-proportional polyline position (the amended reading of the
distance-density sampler): the piecewise-linear path that places vertex
`j` at parameter `j / (n-1)` — i.e. treats the constituent points as
equally spaced — evaluated at fraction `t`. -/
def indexInterp (points : List RoutePoint) (t : ℚ) : RoutePoint :=
  let n := points.length
  let s : ℚ := t * ((n : ℚ) - 1)
  let j : ℕ := min ⌊s⌋.toNat (n - 2)
  let p1 := points.getD j ⟨0, 0⟩
  let p2 := points.getD (j + 1) ⟨0, 0⟩
  ⟨p1.lat + (p2.lat - p1.lat) * (s - (j : ℚ)),
   p1.lng + (p2.lng - p1.lng) * (s - (j : ℚ))⟩

/-- The sample instants the spec describes for the duration-per-segment
sampler: each segment contributes instants `segment start + k·step_seconds`
for `k ∈ [0, steps)`, and consecutive segments advance the start by the
whole segment duration in seconds. -/
def segInstants (stepSeconds : ℤ) : List ℚ → PyDatetime → List PyDatetime
  | [], _ => []
  | m :: ms, c =>
    ((List.range (stepsOf stepSeconds m).toNat).map fun (k : ℕ) =>
      c.addSeconds ((k : ℚ) * (stepSeconds : ℚ))) ++
    segInstants stepSeconds ms (c.addSeconds ((segSecsOf m : ℤ) : ℚ))

/-! ## Basic lemmas -/

lemma clip_nonneg (x : ℚ) : 0 ≤ _clip x := le_max_left 0 _

lemma clip_le_one (x : ℚ) : _clip x ≤ 1 :=
  max_le (by norm_num) (min_le_left 1 x)

lemma clip_of_nonpos {x : ℚ} (h : x ≤ 0) : _clip x = 0 := by
  unfold _clip
  rw [min_eq_right (h.trans zero_le_one), max_eq_left h]

lemma clip_mono {x y : ℚ} (h : x ≤ y) : _clip x ≤ _clip y :=
  max_le_max le_rfl (min_le_min le_rfl h)

lemma clip_zero : _clip 0 = 0 := clip_of_nonpos le_rfl

lemma pymod_eq_fract (x : ℚ) {m : ℚ} (hm : m ≠ 0) :
    pymod x m = m * Int.fract (x / m) := by
  unfold pymod Int.fract
  field_simp

lemma pymod_nonneg (x : ℚ) {m : ℚ} (hm : 0 < m) : 0 ≤ pymod x m := by
  rw [pymod_eq_fract x hm.ne']
  exact mul_nonneg hm.le (Int.fract_nonneg _)

lemma pymod_lt (x : ℚ) {m : ℚ} (hm : 0 < m) : pymod x m < m := by
  rw [pymod_eq_fract x hm.ne']
  calc m * Int.fract (x / m) < m * 1 :=
        (mul_lt_mul_left hm).mpr (Int.fract_lt_one _)
    _ = m := mul_one m

lemma pymod_neg (y : ℚ) {m : ℚ} (hm : 0 < m) :
    pymod (-y) m = if pymod y m = 0 then 0 else m - pymod y m := by
  have hm' : m ≠ 0 := hm.ne'
  have hy : pymod y m = m * Int.fract (y / m) := pymod_eq_fract y hm'
  have hny : pymod (-y) m = m * Int.fract (-(y / m)) := by
    rw [pymod_eq_fract (-y) hm', neg_div]
  have hzero : pymod y m = 0 ↔ Int.fract (y / m) = 0 := by
    rw [hy, mul_eq_zero]
    exact or_iff_right hm'
  by_cases h : Int.fract (y / m) = 0
  · rw [if_pos (hzero.mpr h), hny, Int.fract_neg_eq_zero.mpr h, mul_zero]
  · rw [if_neg (fun hc => h (hzero.mp hc)), hny, Int.fract_neg h, hy]
    ring

/-- C6: `_angdiff` is symmetric in its arguments and always lies in
`[0, 180]`. -/
theorem angdiff_symm_mem_Icc (a b : ℚ) :
    _angdiff a b = _angdiff b a ∧ 0 ≤ _angdiff a b ∧ _angdiff a b ≤ 180 := by
  have h360 : (0 : ℚ) < 360 := by norm_num
  have hd1 : 0 ≤ pymod (a - b) 360 := pymod_nonneg _ h360
  have hd1' : pymod (a - b) 360 < 360 := pymod_lt _ h360
  have hd2 : 0 ≤ pymod (b - a) 360 := pymod_nonneg _ h360
  have hneg : pymod (b - a) 360 =
      if pymod (a - b) 360 = 0 then 0 else 360 - pymod (a - b) 360 := by
    have : b - a = -(a - b) := by ring
    rw [this, pymod_neg _ h360]
  constructor
  · unfold _angdiff
    rw [abs_of_nonneg hd1, abs_of_nonneg hd2, hneg]
    by_cases h0 : pymod (a - b) 360 = 0
    · rw [if_pos h0, h0]
    · rw [if_neg h0]
      have hpos : 0 < pymod (a - b) 360 := lt_of_le_of_ne hd1 (Ne.symm h0)
      by_cases h180 : pymod (a - b) 360 ≤ 180
      · rw [if_pos h180]
        by_cases heq : pymod (a - b) 360 = 180
        · rw [heq]; norm_num
        · have : ¬ 360 - pymod (a - b) 360 ≤ 180 := by
            intro hc
            exact heq (le_antisymm h180 (by linarith))
          rw [if_neg this]; ring
      · rw [if_neg h180, if_pos (by linarith)]
  · unfold _angdiff
    rw [abs_of_nonneg hd1]
    constructor
    · show 0 ≤ if pymod (a - b) 360 ≤ 180 then pymod (a - b) 360
        else 360 - pymod (a - b) 360
      split
      · exact hd1
      · linarith
    · show (if pymod (a - b) 360 ≤ 180 then pymod (a - b) 360
        else 360 - pymod (a - b) 360) ≤ 180
      split
      · assumption
      · linarith

lemma _to_utc_aware {t : PyDatetime} {off : ℚ} (h : t.tzOffset = some off) :
    _to_utc t = .ok ⟨t.absSeconds, some 0⟩ := by
  unfold _to_utc PyDatetime.absSeconds
  rw [h]
  rfl

lemma _solar_aware (getAz getAlt : SolarFn) (lat lon : ℚ) {t : PyDatetime}
    {off : ℚ} (h : t.tzOffset = some off) :
    _solar getAz getAlt lat lon t =
      .ok (pymod (getAz lat lon t.absSeconds) 360, getAlt lat lon t.absSeconds) := by
  unfold _solar
  rw [_to_utc_aware h]

lemma glare_score_aware (getAz getAlt : SolarFn) (lat lon heading : ℚ)
    {t : PyDatetime} {off : ℚ} (h : t.tzOffset = some off) :
    glare_score getAz getAlt lat lon t heading =
      .ok (glareScoreAux (pymod (getAz lat lon t.absSeconds) 360,
        getAlt lat lon t.absSeconds) heading) := by
  unfold glare_score
  rw [_solar_aware getAz getAlt lat lon h]

lemma practical_glare_score_aware (getAz getAlt : SolarFn)
    (lat lon heading : ℚ) {t : PyDatetime} {off : ℚ}
    (h : t.tzOffset = some off) :
    practical_glare_score getAz getAlt lat lon t heading =
      .ok (practicalScoreAt getAz getAlt lat lon t heading) := by
  unfold practical_glare_score practicalScoreAt
  rw [_solar_aware getAz getAlt lat lon h]

lemma elev_term_of_nonpos {el : ℚ} (h : el ≤ 0) : _elev_term el = 0 := by
  unfold _elev_term
  rw [if_pos h]

lemma practical_elev_term_of_nonpos {el : ℚ} (h : el ≤ 0) :
    practical_elev_term el = 0 := by
  unfold practical_elev_term
  rw [if_pos h]

/-- C1: on every timezone-aware instant, `glare_score` and
`practical_glare_score` succeed, return a score in `[0, 1]`, and the score
is exactly 0 whenever the solar altitude at that point and instant is
non-positive. -/
theorem glare_score_in_unit_and_zero_below_horizon (getAz getAlt : SolarFn)
    (lat lon heading : ℚ) (t : PyDatetime) (ht : t.tzOffset.isSome) :
    ∃ g p, glare_score getAz getAlt lat lon t heading = .ok g ∧
      practical_glare_score getAz getAlt lat lon t heading = .ok p ∧
      0 ≤ g.score ∧ g.score ≤ 1 ∧ 0 ≤ p.score ∧ p.score ≤ 1 ∧
      (getAlt lat lon t.absSeconds ≤ 0 → g.score = 0 ∧ p.score = 0) := by
  obtain ⟨off, hoff⟩ := Option.isSome_iff_exists.mp ht
  refine ⟨_, _, glare_score_aware getAz getAlt lat lon heading hoff,
    practical_glare_score_aware getAz getAlt lat lon heading hoff,
    clip_nonneg _, clip_le_one _, clip_nonneg _, clip_le_one _, ?_⟩
  intro hel
  unfold glareScoreAux practicalScoreAt practicalGlareAux
  simp only
  rw [elev_term_of_nonpos hel, practical_elev_term_of_nonpos hel]
  simp only [zero_mul, clip_zero]
  trivial

/-- Witness for C1 at a concrete aware instant with the sun below the
horizon. -/
theorem glare_score_in_unit_witness :
    (PyDatetime.mk 0 (some 0)).tzOffset.isSome ∧
    (∃ g p, glare_score (fun _ _ _ => 180) (fun _ _ _ => -5) 33 (-84)
        ⟨0, some 0⟩ 90 = .ok g ∧
      practical_glare_score (fun _ _ _ => 180) (fun _ _ _ => -5) 33 (-84)
        ⟨0, some 0⟩ 90 = .ok p ∧
      0 ≤ g.score ∧ g.score ≤ 1 ∧ 0 ≤ p.score ∧ p.score ≤ 1 ∧
      ((fun _ _ _ => (-5 : ℚ)) 33 (-84) (PyDatetime.mk 0 (some 0)).absSeconds ≤ 0 →
        g.score = 0 ∧ p.score = 0)) :=
  ⟨by decide,
    glare_score_in_unit_and_zero_below_horizon (fun _ _ _ => 180)
      (fun _ _ _ => -5) 33 (-84) 90 ⟨0, some 0⟩ (by decide)⟩

/-- C7: a naive instant makes `glare_score` fail — uniformly in the external
solar functions, which are therefore never consulted — while a
timezone-aware instant is accepted and handed to the external functions
converted to UTC (offset zero, same absolute instant). -/
theorem naive_instant_rejected_aware_converted (getAz getAlt : SolarFn)
    (lat lon heading : ℚ) (t : PyDatetime) :
    (t.tzOffset = none →
      glare_score getAz getAlt lat lon t heading =
        .error "`when` must be timezone-aware") ∧
    (∀ off, t.tzOffset = some off →
      _to_utc t = .ok ⟨t.absSeconds, some 0⟩ ∧
      glare_score getAz getAlt lat lon t heading =
        .ok (glareScoreAux (pymod (getAz lat lon t.absSeconds) 360,
          getAlt lat lon t.absSeconds) heading)) := by
  constructor
  · intro hnone
    unfold glare_score _solar _to_utc
    rw [hnone]
  · intro off hoff
    exact ⟨_to_utc_aware hoff, glare_score_aware getAz getAlt lat lon heading hoff⟩

/-- Witness for C7: one concrete naive instant is rejected and one concrete
aware instant is converted. -/
theorem naive_instant_rejected_witness :
    ((PyDatetime.mk 7 none).tzOffset = none ∧
      glare_score (fun _ _ _ => 10) (fun _ _ _ => 10) 1 2 ⟨7, none⟩ 3 =
        .error "`when` must be timezone-aware") ∧
    ((PyDatetime.mk 7 (some 3600)).tzOffset = some 3600 ∧
      _to_utc ⟨7, some 3600⟩ = .ok ⟨(PyDatetime.mk 7 (some 3600)).absSeconds, some 0⟩ ∧
      glare_score (fun _ _ _ => 10) (fun _ _ _ => 10) 1 2 ⟨7, some 3600⟩ 3 =
        .ok (glareScoreAux
          (pymod ((fun _ _ _ => (10 : ℚ)) 1 2 (PyDatetime.mk 7 (some 3600)).absSeconds) 360,
            (fun _ _ _ => (10 : ℚ)) 1 2 (PyDatetime.mk 7 (some 3600)).absSeconds) 3)) :=
  ⟨⟨rfl, (naive_instant_rejected_aware_converted (fun _ _ _ => 10)
      (fun _ _ _ => 10) 1 2 3 ⟨7, none⟩).1 rfl⟩,
    ⟨rfl, (naive_instant_rejected_aware_converted (fun _ _ _ => 10)
      (fun _ _ _ => 10) 1 2 3 ⟨7, some 3600⟩).2 3600 rfl⟩⟩

/-! ## Elevation-term structure and monotonicity (C9, C5) -/

lemma elev_term_of_gt_theta {el : ℚ} (h : THETA_E < el) :
    _elev_term el = _clip (if THETA_E < el ∧ el < THETA_E + TAIL_E
      then (1 - (el - THETA_E) / TAIL_E) * 0.35 else 0) := by
  have h0 : ¬ el ≤ 0 := by unfold THETA_E at h; linarith
  have hprim : _clip (1 - el / THETA_E) = 0 := by
    apply clip_of_nonpos
    unfold THETA_E at h ⊢
    linarith
  unfold _elev_term
  rw [if_neg h0]
  simp only [hprim, zero_add]

lemma practical_elev_term_of_gt_theta {el : ℚ} (h : PRACTICAL_THETA_E < el) :
    practical_elev_term el = _clip (if PRACTICAL_THETA_E < el ∧ el < PRACTICAL_THETA_E + 10
      then (1 - (el - PRACTICAL_THETA_E) / 10) * 0.35 else 0) := by
  have h0 : ¬ el ≤ 0 := by unfold PRACTICAL_THETA_E at h; linarith
  have hprim : _clip (1 - el / PRACTICAL_THETA_E) = 0 := by
    apply clip_of_nonpos
    unfold PRACTICAL_THETA_E at h ⊢
    linarith
  unfold practical_elev_term
  rw [if_neg h0]
  simp only [hprim, zero_add]

/-- C9: both elevation terms are discontinuous at their cutoff: the term is
0 at `θ_E` itself (the primary ramp reaches 0 and the tail condition is
strict), while on the open tail zone `(θ_E, θ_E + 10)` it equals the
positive value `0.35 · (1 - (el - θ_E)/10)`, so the term (and with it the
score) jumps upward as the altitude crosses `θ_E`. -/
theorem elev_term_discontinuous_at_theta_e (el₁ el₂ : ℚ)
    (h1 : THETA_E < el₁) (h2 : el₁ < THETA_E + TAIL_E)
    (h3 : PRACTICAL_THETA_E < el₂) (h4 : el₂ < PRACTICAL_THETA_E + 10) :
    _elev_term THETA_E = 0 ∧
    (_elev_term el₁ = 0.35 * (1 - (el₁ - THETA_E) / TAIL_E) ∧
      0 < _elev_term el₁) ∧
    practical_elev_term PRACTICAL_THETA_E = 0 ∧
    (practical_elev_term el₂ = 0.35 * (1 - (el₂ - PRACTICAL_THETA_E) / 10) ∧
      0 < practical_elev_term el₂) := by
  have htail1 : _elev_term el₁ = _clip ((1 - (el₁ - THETA_E) / TAIL_E) * 0.35) := by
    rw [elev_term_of_gt_theta h1, if_pos ⟨h1, h2⟩]
  have htail2 : practical_elev_term el₂ =
      _clip ((1 - (el₂ - PRACTICAL_THETA_E) / 10) * 0.35) := by
    rw [practical_elev_term_of_gt_theta h3, if_pos ⟨h3, h4⟩]
  simp only [THETA_E, TAIL_E] at h1 h2 htail1
  simp only [PRACTICAL_THETA_E] at h3 h4 htail2
  simp only [THETA_E, TAIL_E, PRACTICAL_THETA_E]
  refine ⟨by norm_num [_elev_term, _clip, THETA_E, TAIL_E], ⟨?_, ?_⟩,
    by norm_num [practical_elev_term, _clip, PRACTICAL_THETA_E], ⟨?_, ?_⟩⟩
  · rw [htail1]
    unfold _clip
    rw [min_eq_right (by nlinarith), max_eq_right (by nlinarith)]
    ring
  · rw [htail1]
    unfold _clip
    rw [min_eq_right (by nlinarith)]
    have : 0 < (1 - (el₁ - 15) / 10) * 0.35 := by nlinarith
    rw [max_eq_right this.le]
    exact this
  · rw [htail2]
    unfold _clip
    rw [min_eq_right (by nlinarith), max_eq_right (by nlinarith)]
    ring
  · rw [htail2]
    unfold _clip
    rw [min_eq_right (by nlinarith)]
    have : 0 < (1 - (el₂ - 20) / 10) * 0.35 := by nlinarith
    rw [max_eq_right this.le]
    exact this

/-- Witness for C9 at altitudes 16° (narrow model) and 21° (practical). -/
theorem elev_term_discontinuous_witness :
    (THETA_E < 16 ∧ (16 : ℚ) < THETA_E + TAIL_E ∧
      PRACTICAL_THETA_E < 21 ∧ (21 : ℚ) < PRACTICAL_THETA_E + 10) ∧
    (_elev_term THETA_E = 0 ∧
      (_elev_term 16 = 0.35 * (1 - (16 - THETA_E) / TAIL_E) ∧
        0 < _elev_term 16) ∧
      practical_elev_term PRACTICAL_THETA_E = 0 ∧
      (practical_elev_term 21 = 0.35 * (1 - (21 - PRACTICAL_THETA_E) / 10) ∧
        0 < practical_elev_term 21)) :=
  ⟨by norm_num [THETA_E, TAIL_E, PRACTICAL_THETA_E],
    elev_term_discontinuous_at_theta_e 16 21
      (by norm_num [THETA_E]) (by norm_num [THETA_E, TAIL_E])
      (by norm_num [PRACTICAL_THETA_E]) (by norm_num [PRACTICAL_THETA_E])⟩

lemma heading_term_nonneg (d : ℚ) : 0 ≤ _heading_term d := by
  unfold _heading_term
  split
  · exact le_rfl
  · exact clip_nonneg _

lemma elev_term_nonneg (el : ℚ) : 0 ≤ _elev_term el := by
  unfold _elev_term
  split
  · exact le_rfl
  · exact clip_nonneg _

lemma heading_term_anti {d₁ d₂ : ℚ} (h0 : 0 ≤ d₁) (h12 : d₁ ≤ d₂) :
    _heading_term d₂ ≤ _heading_term d₁ := by
  unfold _heading_term
  by_cases hc1 : THETA_H ≤ d₁
  · rw [if_pos hc1, if_pos (hc1.trans h12)]
  · rw [if_neg hc1]
    split
    · exact clip_nonneg _
    · apply clip_mono
      have hsq : (d₁ / THETA_H) ^ 2 ≤ (d₂ / THETA_H) ^ 2 := by
        unfold THETA_H
        have h1 : 0 ≤ d₁ / 25 := by positivity
        have h2 : d₁ / 25 ≤ d₂ / 25 := by linarith
        exact pow_le_pow_left₀ h1 h2 2
      linarith

lemma elev_term_anti_above {e₁ e₂ : ℚ} (h1 : THETA_E < e₁) (h12 : e₁ ≤ e₂) :
    _elev_term e₂ ≤ _elev_term e₁ := by
  have h1' : (15 : ℚ) < e₁ := by simpa [THETA_E] using h1
  rw [elev_term_of_gt_theta h1, elev_term_of_gt_theta (h1.trans_le h12)]
  apply clip_mono
  simp only [THETA_E, TAIL_E]
  split_ifs with hA hB hB
  · linarith
  · exfalso
    push_neg at hB
    have := hB h1'
    linarith [hA.2]
  · nlinarith [hB.2]
  · exact le_rfl

/-- C5: for a fixed positive altitude the glare score (the clipped product
of the elevation and heading terms of glare_index.py) is non-increasing in
the angular difference over `[0, 180]`; and for a fixed angular difference
it is non-increasing in the altitude on altitudes strictly above `θ_E`. -/
theorem glare_score_monotone_in_delta_and_altitude
    (el d₁ d₂ e₁ e₂ d : ℚ) (hel : 0 < el) (hd₁ : 0 ≤ d₁) (hd₁₂ : d₁ ≤ d₂)
    (hd₂ : d₂ ≤ 180) (hd0 : 0 ≤ d) (hd180 : d ≤ 180)
    (he₁ : THETA_E < e₁) (he₁₂ : e₁ ≤ e₂) :
    _clip (_elev_term el * _heading_term d₂) ≤
      _clip (_elev_term el * _heading_term d₁) ∧
    _clip (_elev_term e₂ * _heading_term d) ≤
      _clip (_elev_term e₁ * _heading_term d) := by
  constructor
  · exact clip_mono (mul_le_mul_of_nonneg_left
      (heading_term_anti hd₁ hd₁₂) (elev_term_nonneg el))
  · exact clip_mono (mul_le_mul_of_nonneg_right
      (elev_term_anti_above he₁ he₁₂) (heading_term_nonneg d))

/-- Witness for C5 at altitude 5°, differences 10° ≤ 20°, altitudes
16° ≤ 18° above the 15° cutoff, fixed difference 0°. -/
theorem glare_score_monotone_witness :
    ((0 : ℚ) < 5 ∧ (0 : ℚ) ≤ 10 ∧ (10 : ℚ) ≤ 20 ∧ (20 : ℚ) ≤ 180 ∧
      (0 : ℚ) ≤ 0 ∧ (0 : ℚ) ≤ 180 ∧ THETA_E < 16 ∧ (16 : ℚ) ≤ 18) ∧
    (_clip (_elev_term 5 * _heading_term 20) ≤
      _clip (_elev_term 5 * _heading_term 10) ∧
    _clip (_elev_term 18 * _heading_term 0) ≤
      _clip (_elev_term 16 * _heading_term 0)) :=
  ⟨by norm_num [THETA_E],
    glare_score_monotone_in_delta_and_altitude 5 10 20 16 18 0
      (by norm_num) (by norm_num) (by norm_num) (by norm_num)
      (by norm_num) (by norm_num) (by norm_num [THETA_E]) (by norm_num)⟩

/-! ## Distance-density point count (C3) -/

lemma pytrunc_of_nonneg {x : ℚ} (h : 0 ≤ x) : pytrunc x = ⌊x⌋ := by
  unfold pytrunc
  rw [if_pos h]

/-- C3 (amended): for nonnegative distances the number of analysis points
is `clamp(floor(distance_m / 50), 10, 100)` — the code truncates with
`int(...)`, it does not round — and the two spec instances hold:
5000 m gives 100 points, 100 m gives 10. -/
theorem num_analysis_points_clamp_floor (d : ℚ) (hd : 0 ≤ d) :
    numAnalysisPoints d = max 10 (min 100 ⌊d / 50⌋) ∧
    numAnalysisPoints 5000 = 100 ∧ numAnalysisPoints 100 = 10 := by
  refine ⟨?_, by norm_num [numAnalysisPoints, pytrunc],
    by norm_num [numAnalysisPoints, pytrunc]⟩
  unfold numAnalysisPoints
  rw [pytrunc_of_nonneg (by positivity)]

/-- Witness for C3's amended statement at distance 0. -/
theorem num_analysis_points_clamp_floor_witness :
    (0 : ℚ) ≤ 0 ∧
    (numAnalysisPoints 0 = max 10 (min 100 ⌊(0 : ℚ) / 50⌋) ∧
      numAnalysisPoints 5000 = 100 ∧ numAnalysisPoints 100 = 10) :=
  ⟨le_rfl, num_analysis_points_clamp_floor 0 le_rfl⟩

/-- C3 counterexample: at distance 2580 m the code produces
`int(2580/50) = 51` points, while the claimed `clamp(round(distance/50),
10, 100)` would give 52. -/
theorem num_analysis_points_truncates_not_rounds :
    numAnalysisPoints 2580 = 51 ∧
    max 10 (min 100 (specRound (2580 / 50))) = 52 ∧ (51 : ℤ) ≠ 52 := by
  refine ⟨by norm_num [numAnalysisPoints, pytrunc],
    by norm_num [specRound], by decide⟩

/-! ## Duration-per-segment sampler validation (C8) -/

/-- C8: `run_glare_simulation_with_durations` fails (producing no samples)
exactly when the route has fewer than 2 points or the duration list's
length differs from `len(route_points) - 1`. -/
theorem duration_sampler_validation (b : HeadingFn) (s : Scorer)
    (pts : List Pt) (mins : List ℚ) (start : PyDatetime) (step : ℤ) :
    (∃ e, run_glare_simulation_with_durations b s pts mins start step =
      .error e) ↔ (pts.length < 2 ∨ mins.length ≠ pts.length - 1) := by
  unfold run_glare_simulation_with_durations
  split_ifs with h1 h2
  · exact iff_of_true ⟨_, rfl⟩ (Or.inl h1)
  · exact iff_of_true ⟨_, rfl⟩ (Or.inr h2)
  · refine iff_of_false ?_ (not_or.mpr ⟨h1, h2⟩)
    rintro ⟨e, he⟩
    exact he

/-! ## Duration-per-segment sampler structure (C4) -/

lemma addSeconds_addSeconds (t : PyDatetime) (a b : ℚ) :
    (t.addSeconds a).addSeconds b = t.addSeconds (a + b) := by
  simp [PyDatetime.addSeconds, add_assoc]

lemma addSeconds_zero (t : PyDatetime) : t.addSeconds 0 = t := by
  simp [PyDatetime.addSeconds]

lemma one_le_stepsOf (step : ℤ) (m : ℚ) : 1 ≤ stepsOf step m :=
  le_max_left 1 _

lemma one_le_segSecsOf (m : ℚ) : 1 ≤ segSecsOf m :=
  le_max_left 1 _

lemma runSimAux_snd (b : HeadingFn) (s : Scorer) (step : ℤ) :
    ∀ (trips : List (Pt × Pt × ℚ)) (c : PyDatetime),
      (runSimAux b s step trips c).2 =
        c.addSeconds (((trips.map (fun x => segSecsOf x.2.2)).sum : ℤ) : ℚ)
  | [], c => by simp [runSimAux, addSeconds_zero]
  | (p1, p2, m) :: tl, c => by
    simp only [runSimAux, List.map_cons, List.sum_cons]
    rw [runSimAux_snd b s step tl, addSeconds_addSeconds]
    push_cast
    rfl

lemma runSimAux_times (b : HeadingFn) (s : Scorer) (step : ℤ) :
    ∀ (trips : List (Pt × Pt × ℚ)) (c : PyDatetime),
      (runSimAux b s step trips c).1.map (·.when) =
        segInstants step (trips.map (fun x => x.2.2)) c
  | [], c => by simp [runSimAux, segInstants]
  | (p1, p2, m) :: tl, c => by
    simp only [runSimAux, segInstants, List.map_cons, List.map_append,
      List.map_map]
    rw [runSimAux_times b s step tl]
    rfl

lemma runSimAux_len (b : HeadingFn) (s : Scorer) (step : ℤ) :
    ∀ (trips : List (Pt × Pt × ℚ)) (c : PyDatetime),
      ((runSimAux b s step trips c).1.length : ℤ) =
        (trips.map (fun x => stepsOf step x.2.2)).sum
  | [], c => by simp [runSimAux]
  | (p1, p2, m) :: tl, c => by
    simp only [runSimAux, List.map_cons, List.sum_cons]
    rw [List.length_append, List.length_map, List.length_range]
    push_cast
    rw [runSimAux_len b s step tl,
      Int.toNat_of_nonneg (zero_le_one.trans (one_le_stepsOf step m))]

lemma segTriples_snd :
    ∀ (mins : List ℚ) (pts : List Pt), pts.length = mins.length + 1 →
      (segTriples pts mins).map (fun x => x.2.2) = mins
  | [], pts, _ => by
    match pts with
    | [] => rfl
    | [_] => rfl
    | _ :: _ :: _ => rfl
  | m :: ms, pts, h => by
    match pts with
    | [] => simp at h
    | [_] => simp at h
    | p1 :: p2 :: ps =>
      simp only [segTriples, List.map_cons, List.cons.injEq, true_and]
      exact segTriples_snd ms (p2 :: ps) (by simpa using h)

/-- C4: with a valid route and a positive integer step, the duration
sampler succeeds; each segment contributes
`max(1, floor(segment_seconds / step_seconds))` samples at instants
segment-start + k·step_seconds, followed by exactly one trailing endpoint
sample at the route's last point and the final instant
start + total segment seconds. -/
theorem duration_sampler_structure (b : HeadingFn) (s : Scorer)
    (pts : List Pt) (mins : List ℚ) (start : PyDatetime) (step : ℤ)
    (h2 : 2 ≤ pts.length) (hm : mins.length = pts.length - 1)
    (hstep : 1 ≤ step) :
    ∃ samples,
      run_glare_simulation_with_durations b s pts mins start step =
        .ok samples ∧
      (samples.length : ℤ) =
        (mins.map (fun m => max 1 (Int.fdiv (segSecsOf m) step))).sum + 1 ∧
      samples.map (·.when) = segInstants step mins start ++
        [start.addSeconds (((mins.map segSecsOf).sum : ℤ) : ℚ)] ∧
      samples.getLast?.map (fun x => (x.lat, x.lon, x.when)) =
        some ((pts.getLast?.getD ⟨0, 0⟩).lat, (pts.getLast?.getD ⟨0, 0⟩).lon,
          start.addSeconds (((mins.map segSecsOf).sum : ℤ) : ℚ)) := by
  have hlen : pts.length = mins.length + 1 := by omega
  have htrip : (segTriples pts mins).map (fun x => x.2.2) = mins :=
    segTriples_snd mins pts hlen
  have hsteps : ∀ m : ℚ, stepsOf step m = max 1 (Int.fdiv (segSecsOf m) step) := by
    intro m
    unfold stepsOf
    rw [max_eq_right hstep]
  have hmap1 : (segTriples pts mins).map (fun x => stepsOf step x.2.2) =
      mins.map (fun m => max 1 (Int.fdiv (segSecsOf m) step)) := by
    conv_rhs => rw [← htrip, List.map_map]
    apply List.map_congr_left
    intro x _
    simpa using hsteps x.2.2
  have hmap2 : (segTriples pts mins).map (fun x => segSecsOf x.2.2) =
      mins.map segSecsOf := by
    conv_rhs => rw [← htrip, List.map_map]
    rfl
  have hsnd : (runSimAux b s step (segTriples pts mins) start).2 =
      start.addSeconds (((mins.map segSecsOf).sum : ℤ) : ℚ) := by
    rw [runSimAux_snd, hmap2]
  unfold run_glare_simulation_with_durations
  rw [if_neg (by omega), if_neg (by omega)]
  refine ⟨_, rfl, ?_, ?_, ?_⟩
  · simp only [List.length_append, List.length_cons, List.length_nil]
    push_cast
    rw [runSimAux_len, hmap1]
  · simp only [List.map_append, List.map_cons, List.map_nil]
    rw [runSimAux_times, htrip, hsnd]
  · rw [List.getLast?_concat]
    simp only [Option.map_some']
    rw [hsnd]

/-- Witness for C4: a 2-point route with one 10-minute (600 s) segment and
a 10 s step gives 60 + 1 = 61 samples and a final instant of exactly
start + 600 s. -/
theorem duration_sampler_structure_witness :
    (2 ≤ ([⟨0, 0⟩, ⟨1, 1⟩] : List Pt).length) ∧
    ((([10] : List ℚ).map
      (fun m => max 1 (Int.fdiv (segSecsOf m) 10))).sum + 1 = 61) ∧
    ((([10] : List ℚ).map segSecsOf).sum = 600) ∧
    (∃ samples,
      run_glare_simulation_with_durations (fun _ _ _ _ => 0)
        (fun _ _ _ _ => ⟨0, 0, 0, 0⟩) [⟨0, 0⟩, ⟨1, 1⟩] [10]
        ⟨0, some 0⟩ 10 = .ok samples ∧
      (samples.length : ℤ) =
        (([10] : List ℚ).map
          (fun m => max 1 (Int.fdiv (segSecsOf m) 10))).sum + 1 ∧
      samples.map (·.when) = segInstants 10 [10] ⟨0, some 0⟩ ++
        [PyDatetime.addSeconds ⟨0, some 0⟩
          (((([10] : List ℚ).map segSecsOf).sum : ℤ) : ℚ)] ∧
      samples.getLast?.map (fun x => (x.lat, x.lon, x.when)) =
        some ((([⟨0, 0⟩, ⟨1, 1⟩] : List Pt).getLast?.getD ⟨0, 0⟩).lat,
          (([⟨0, 0⟩, ⟨1, 1⟩] : List Pt).getLast?.getD ⟨0, 0⟩).lon,
          PyDatetime.addSeconds ⟨0, some 0⟩
            (((([10] : List ℚ).map segSecsOf).sum : ℤ) : ℚ))) := by
  have hsecs : segSecsOf 10 = 600 := by norm_num [segSecsOf, pyround]
  refine ⟨by decide, ?_, ?_,
    duration_sampler_structure (fun _ _ _ _ => 0)
      (fun _ _ _ _ => ⟨0, 0, 0, 0⟩) [⟨0, 0⟩, ⟨1, 1⟩] [10] ⟨0, some 0⟩ 10
      (by decide) (by decide) (by decide)⟩
  · simp only [List.map_cons, List.map_nil, List.sum_cons, List.sum_nil,
      hsecs, add_zero]
    decide
  · simp only [List.map_cons, List.map_nil, List.sum_cons, List.sum_nil,
      hsecs, add_zero]

/-! ## Distance-density interpolation (C2) -/

/-- C2 counterexample: for the segment with equatorial polyline
[(0,0), (0,1), (0,100)] (uneven spacing), distance 500 m (10 analysis
points) and duration 900 s, the analysis point at index 4 has the shared
fraction 4/9: its instant is start + 4/9·900 = start + 400 s, but its
position is longitude 8/9 — the *index*-proportional point — whereas the
arc-length-proportional position at fraction 4/9 is longitude 400/9.  So
the sample's position is not at the arc-length-proportional fraction. -/
theorem analyze_position_not_arclength_proportional :
    ((segmentGlarePoints (fun _ _ _ _ => 0) (fun _ _ _ => 0) (fun _ _ _ => 0)
        ⟨[⟨0, 0⟩, ⟨0, 1⟩, ⟨0, 100⟩], 500, 900⟩ ⟨0, some 0⟩).map
      (fun gp => (gp.lng, gp.time)))[4]? =
        some ((8 / 9 : ℚ), PyDatetime.mk 400 (some 0)) ∧
    (arcLengthPos eqDist [⟨0, 0⟩, ⟨0, 1⟩, ⟨0, 100⟩] (4 / 9)).lng = 400 / 9 ∧
    (8 / 9 : ℚ) ≠ 400 / 9 := by
  have hnum : (numAnalysisPoints 500).toNat = 10 := by
    have h : numAnalysisPoints 500 = 10 := by norm_num [numAnalysisPoints, pytrunc]
    rw [h]
    rfl
  refine ⟨?_, ?_, by norm_num⟩
  · simp only [segmentGlarePoints, hnum, List.map_map, List.getElem?_map,
      List.getElem?_range]
    norm_num [interpOne, pytrunc, PyDatetime.addSeconds]
  · norm_num [arcLengthPos, polylineLen, walkArc, eqDist]

lemma interpOne_eq_indexInterp (ch : HeadingFn) (pts : List RoutePoint)
    (frac : ℚ) (h2 : 2 ≤ pts.length) (h0 : 0 ≤ frac) :
    (interpOne ch pts frac).1 = indexInterp pts frac := by
  have hne1 : pts.length ≠ 1 := by omega
  have hs0 : 0 ≤ frac * ((pts.length : ℚ) - 1) := by
    apply mul_nonneg h0
    have : (2 : ℚ) ≤ (pts.length : ℚ) := by exact_mod_cast h2
    linarith
  have hfl0 : 0 ≤ ⌊frac * ((pts.length : ℚ) - 1)⌋ := Int.floor_nonneg.mpr hs0
  simp only [interpOne, indexInterp, if_neg hne1,
    pytrunc_of_nonneg hs0]
  have hnat : (min ⌊frac * ((pts.length : ℚ) - 1)⌋ ((pts.length : ℤ) - 2)).toNat
      = min ⌊frac * ((pts.length : ℚ) - 1)⌋.toNat (pts.length - 2) := by
    omega
  have hlt : min ⌊frac * ((pts.length : ℚ) - 1)⌋ ((pts.length : ℤ) - 2) + 1
      < (pts.length : ℤ) := by
    omega
  have hge : 0 ≤ min ⌊frac * ((pts.length : ℚ) - 1)⌋ ((pts.length : ℤ) - 2) := by
    omega
  have hq : ((min ⌊frac * ((pts.length : ℚ) - 1)⌋ ((pts.length : ℤ) - 2) : ℤ) : ℚ)
      = (((min ⌊frac * ((pts.length : ℚ) - 1)⌋ ((pts.length : ℤ) - 2)).toNat : ℕ) : ℚ) := by
    calc ((min ⌊frac * ((pts.length : ℚ) - 1)⌋ ((pts.length : ℤ) - 2) : ℤ) : ℚ)
        = (((min ⌊frac * ((pts.length : ℚ) - 1)⌋ ((pts.length : ℤ) - 2)).toNat : ℤ) : ℚ) := by
          rw [Int.toNat_of_nonneg hge]
      _ = _ := by push_cast; rfl
  rw [if_pos hlt, hq, hnat]

/-- C2 (amended): in the distance-density sampler, one shared fraction
drives both axes — for a segment with at least 2 points, analysis point
`i` uses the fraction `i / (num_points - 1)`; its instant is segment start
plus that fraction of the segment duration, and its position is the
*index*-proportional point of the segment's polyline at that fraction
(the constituent points treated as equally spaced), which coincides with
the arc-length-proportional point only when the spacing is even. -/
theorem analyze_shared_fraction_drives_position_and_time
    (ch : HeadingFn) (getAz getAlt : SolarFn) (seg : RouteSegment)
    (cursor : PyDatetime) (i : ℕ) (h2 : 2 ≤ seg.points.length)
    (hi : i < (numAnalysisPoints seg.distance).toNat) :
    ∃ gp, (segmentGlarePoints ch getAz getAlt seg cursor)[i]? = some gp ∧
      gp.time = cursor.addSeconds
        ((i : ℚ) / (((numAnalysisPoints seg.distance).toNat : ℚ) - 1) *
          seg.duration) ∧
      gp.lat = (indexInterp seg.points
        ((i : ℚ) / (((numAnalysisPoints seg.distance).toNat : ℚ) - 1))).lat ∧
      gp.lng = (indexInterp seg.points
        ((i : ℚ) / (((numAnalysisPoints seg.distance).toNat : ℚ) - 1))).lng := by
  have h10 : (10 : ℤ) ≤ numAnalysisPoints seg.distance := le_max_left _ _
  have hn1 : 1 < (numAnalysisPoints seg.distance).toNat := by omega
  have hfrac0 : 0 ≤ (i : ℚ) / (((numAnalysisPoints seg.distance).toNat : ℚ) - 1) := by
    apply div_nonneg (Nat.cast_nonneg i)
    have : (2 : ℚ) ≤ ((numAnalysisPoints seg.distance).toNat : ℚ) := by
      exact_mod_cast hn1
    linarith
  simp only [segmentGlarePoints, List.getElem?_map, List.getElem?_range, hi,
    if_pos hn1]
  refine ⟨_, rfl, rfl, ?_, ?_⟩
  · show (interpOne ch seg.points
      ((i : ℚ) / (((numAnalysisPoints seg.distance).toNat : ℚ) - 1))).1.lat = _
    rw [interpOne_eq_indexInterp ch seg.points _ h2 hfrac0]
  · show (interpOne ch seg.points
      ((i : ℚ) / (((numAnalysisPoints seg.distance).toNat : ℚ) - 1))).1.lng = _
    rw [interpOne_eq_indexInterp ch seg.points _ h2 hfrac0]

/-- Witness for C2's amended statement on a concrete 3-point segment. -/
theorem analyze_shared_fraction_witness :
    (2 ≤ ([⟨0, 0⟩, ⟨0, 1⟩, ⟨0, 100⟩] : List RoutePoint).length) ∧
    (4 < (numAnalysisPoints 500).toNat) ∧
    (∃ gp, (segmentGlarePoints (fun _ _ _ _ => 0) (fun _ _ _ => 0)
        (fun _ _ _ => 0) ⟨[⟨0, 0⟩, ⟨0, 1⟩, ⟨0, 100⟩], 500, 900⟩
        ⟨0, some 0⟩)[4]? = some gp ∧
      gp.time = PyDatetime.addSeconds ⟨0, some 0⟩
        ((4 : ℚ) / (((numAnalysisPoints 500).toNat : ℚ) - 1) * 900) ∧
      gp.lat = (indexInterp [⟨0, 0⟩, ⟨0, 1⟩, ⟨0, 100⟩]
        ((4 : ℚ) / (((numAnalysisPoints 500).toNat : ℚ) - 1))).lat ∧
      gp.lng = (indexInterp [⟨0, 0⟩, ⟨0, 1⟩, ⟨0, 100⟩]
        ((4 : ℚ) / (((numAnalysisPoints 500).toNat : ℚ) - 1))).lng) := by
  have hnum : numAnalysisPoints 500 = 10 := by
    norm_num [numAnalysisPoints, pytrunc]
  refine ⟨by decide, by rw [hnum]; decide, ?_⟩
  exact analyze_shared_fraction_drives_position_and_time
    (fun _ _ _ _ => 0) (fun _ _ _ => 0) (fun _ _ _ => 0)
    ⟨[⟨0, 0⟩, ⟨0, 1⟩, ⟨0, 100⟩], 500, 900⟩ ⟨0, some 0⟩ 4 (by decide)
    (by rw [hnum]; decide)

/-! ## Empty segments and the time cursor (C10) -/

lemma analyzeGlarePoints_skip_empty (ch : HeadingFn) (ga gl : SolarFn)
    {e : RouteSegment} (he : e.points = []) :
    ∀ (l₁ l₂ : List RouteSegment) (c : PyDatetime),
      analyzeGlarePoints ch ga gl (l₁ ++ e :: l₂) c =
        analyzeGlarePoints ch ga gl (l₁ ++ l₂) c
  | [], l₂, c => by
    have h : e.points.length < 1 := by rw [he]; decide
    simp [analyzeGlarePoints, h]
  | a :: t, l₂, c => by
    by_cases h : a.points.length < 1 <;>
      simp [analyzeGlarePoints, h, analyzeGlarePoints_skip_empty ch ga gl he t l₂]

lemma segmentGlarePoints_getLast (ch : HeadingFn) (ga gl : SolarFn)
    (seg : RouteSegment) (c : PyDatetime) :
    (segmentGlarePoints ch ga gl seg c).getLast?.map (·.time) =
      some (c.addSeconds seg.duration) := by
  have h10 : (10 : ℤ) ≤ numAnalysisPoints seg.distance := le_max_left _ _
  obtain ⟨m, hm⟩ : ∃ m, (numAnalysisPoints seg.distance).toNat = m + 1 :=
    ⟨(numAnalysisPoints seg.distance).toNat - 1, by omega⟩
  have hm9 : 9 ≤ m := by omega
  have hfrac : (if 1 < m + 1 then ((m : ℚ) / (((m + 1 : ℕ) : ℚ) - 1)) else 0) = 1 := by
    rw [if_pos (by omega)]
    have hcast : ((m + 1 : ℕ) : ℚ) - 1 = (m : ℚ) := by push_cast; ring
    rw [hcast]
    exact div_self (Nat.cast_ne_zero.mpr (by omega))
  simp only [segmentGlarePoints]
  rw [hm, List.range_succ, List.map_append, List.map_cons, List.map_nil,
    List.getLast?_concat, Option.map_some']
  simp only [hfrac, one_mul]

lemma analyzeGlarePoints_getLast_time (ch : HeadingFn) (ga gl : SolarFn) :
    ∀ (segs : List RouteSegment) (c : PyDatetime), segs ≠ [] →
      (∀ s ∈ segs, 1 ≤ s.points.length) →
      (analyzeGlarePoints ch ga gl segs c).getLast?.map (·.time) =
        some (c.addSeconds ((segs.map (·.duration)).sum))
  | [], _, hn, _ => absurd rfl hn
  | [a], c, _, hall => by
    have ha : ¬ a.points.length < 1 := by
      have := hall a (by simp)
      omega
    simp only [analyzeGlarePoints, if_neg ha, List.append_nil,
      List.map_cons, List.map_nil, List.sum_cons, List.sum_nil, add_zero]
    exact segmentGlarePoints_getLast ch ga gl a c
  | a :: b :: t, c, _, hall => by
    have ha : ¬ a.points.length < 1 := by
      have := hall a (by simp)
      omega
    have htail := analyzeGlarePoints_getLast_time ch ga gl (b :: t)
      (c.addSeconds a.duration) (by simp)
      (fun s hs => hall s (List.mem_cons_of_mem a hs))
    have hne : analyzeGlarePoints ch ga gl (b :: t) (c.addSeconds a.duration) ≠ [] := by
      intro hnil
      rw [hnil] at htail
      simp at htail
    have hstep : analyzeGlarePoints ch ga gl (a :: b :: t) c =
        segmentGlarePoints ch ga gl a c ++
          analyzeGlarePoints ch ga gl (b :: t) (c.addSeconds a.duration) := by
      show (if a.points.length < 1 then
          analyzeGlarePoints ch ga gl (b :: t) c
        else segmentGlarePoints ch ga gl a c ++
          analyzeGlarePoints ch ga gl (b :: t) (c.addSeconds a.duration)) = _
      rw [if_neg ha]
    rw [hstep, List.getLast?_append_of_ne_nil _ hne, htail, addSeconds_addSeconds]
    simp only [List.map_cons, List.sum_cons, Option.some.injEq]

/-- C10: a segment with an empty points list is skipped before the cursor
advance, so it contributes no samples and no time to any later sample,
while `total_duration` still sums every segment: the reported
total-duration minutes and arrival time include the skipped duration, and
the last sample's timestamp falls short of the arrival time by exactly
that duration. -/
theorem empty_segment_skipped_but_counted (ch : HeadingFn)
    (ga gl : SolarFn) (l₁ l₂ : List RouteSegment) (e : RouteSegment)
    (dep : PyDatetime) (he : e.points = [])
    (hne : ∀ s ∈ l₁ ++ l₂, 1 ≤ s.points.length) (hl : l₁ ++ l₂ ≠ []) :
    (analyze_route_glare ch ga gl (l₁ ++ e :: l₂) dep).statistics.total_duration_minutes =
      (((l₁ ++ e :: l₂).map (·.duration)).sum) / 60 ∧
    (analyze_route_glare ch ga gl (l₁ ++ e :: l₂) dep).statistics.arrival_time =
      dep.addSeconds (((l₁ ++ e :: l₂).map (·.duration)).sum) ∧
    (analyze_route_glare ch ga gl (l₁ ++ e :: l₂) dep).glare_points =
      analyzeGlarePoints ch ga gl (l₁ ++ l₂) dep ∧
    (analyze_route_glare ch ga gl (l₁ ++ e :: l₂) dep).glare_points.getLast?.map
        (fun gp => gp.time.addSeconds e.duration) =
      some ((analyze_route_glare ch ga gl (l₁ ++ e :: l₂) dep).statistics.arrival_time) := by
  have hskip : analyzeGlarePoints ch ga gl (l₁ ++ e :: l₂) dep =
      analyzeGlarePoints ch ga gl (l₁ ++ l₂) dep :=
    analyzeGlarePoints_skip_empty ch ga gl he l₁ l₂ dep
  have hlast := analyzeGlarePoints_getLast_time ch ga gl (l₁ ++ l₂) dep hl hne
  refine ⟨rfl, rfl, hskip, ?_⟩
  show (analyzeGlarePoints ch ga gl (l₁ ++ e :: l₂) dep).getLast?.map
      (fun gp => gp.time.addSeconds e.duration) = _
  rw [hskip]
  cases hgl : (analyzeGlarePoints ch ga gl (l₁ ++ l₂) dep).getLast? with
  | none =>
    rw [hgl] at hlast
    simp at hlast
  | some gp =>
    rw [hgl] at hlast
    simp only [Option.map_some', Option.some.injEq] at hlast ⊢
    rw [hlast, addSeconds_addSeconds]
    show dep.addSeconds _ = dep.addSeconds _
    congr 1
    simp only [List.map_append, List.sum_append, List.map_cons, List.sum_cons]
    ring

/-- Witness for C10: one nonempty 60 s segment followed by an empty 120 s
segment; the stats count 180 s but the last sample sits at dep + 60 s. -/
theorem empty_segment_skipped_witness :
    ((RouteSegment.mk [] 50 120).points = [] ∧
      (∀ s ∈ (([⟨[⟨0, 0⟩, ⟨0, 1⟩], 100, 60⟩] : List RouteSegment) ++
          ([] : List RouteSegment)), 1 ≤ s.points.length) ∧
      (([⟨[⟨0, 0⟩, ⟨0, 1⟩], 100, 60⟩] : List RouteSegment) ++
        ([] : List RouteSegment)) ≠ []) ∧
    ((analyze_route_glare (fun _ _ _ _ => 0) (fun _ _ _ => 0) (fun _ _ _ => 0)
        (([⟨[⟨0, 0⟩, ⟨0, 1⟩], 100, 60⟩] : List RouteSegment) ++
          RouteSegment.mk [] 50 120 :: ([] : List RouteSegment))
        ⟨0, some 0⟩).statistics.total_duration_minutes =
      (((([⟨[⟨0, 0⟩, ⟨0, 1⟩], 100, 60⟩] : List RouteSegment) ++
        RouteSegment.mk [] 50 120 :: ([] : List RouteSegment)).map
        (fun s => s.duration)).sum) / 60 ∧
    (analyze_route_glare (fun _ _ _ _ => 0) (fun _ _ _ => 0) (fun _ _ _ => 0)
        (([⟨[⟨0, 0⟩, ⟨0, 1⟩], 100, 60⟩] : List RouteSegment) ++
          RouteSegment.mk [] 50 120 :: ([] : List RouteSegment))
        ⟨0, some 0⟩).statistics.arrival_time =
      PyDatetime.addSeconds ⟨0, some 0⟩
        ((((([⟨[⟨0, 0⟩, ⟨0, 1⟩], 100, 60⟩] : List RouteSegment)) ++
          RouteSegment.mk [] 50 120 :: ([] : List RouteSegment)).map
          (fun s => s.duration)).sum) ∧
    (analyze_route_glare (fun _ _ _ _ => 0) (fun _ _ _ => 0) (fun _ _ _ => 0)
        (([⟨[⟨0, 0⟩, ⟨0, 1⟩], 100, 60⟩] : List RouteSegment) ++
          RouteSegment.mk [] 50 120 :: ([] : List RouteSegment))
        ⟨0, some 0⟩).glare_points =
      analyzeGlarePoints (fun _ _ _ _ => 0) (fun _ _ _ => 0) (fun _ _ _ => 0)
        (([⟨[⟨0, 0⟩, ⟨0, 1⟩], 100, 60⟩] : List RouteSegment) ++
          ([] : List RouteSegment)) ⟨0, some 0⟩ ∧
    (analyze_route_glare (fun _ _ _ _ => 0) (fun _ _ _ => 0) (fun _ _ _ => 0)
        (([⟨[⟨0, 0⟩, ⟨0, 1⟩], 100, 60⟩] : List RouteSegment) ++
          RouteSegment.mk [] 50 120 :: ([] : List RouteSegment))
        ⟨0, some 0⟩).glare_points.getLast?.map
        (fun gp => gp.time.addSeconds (RouteSegment.mk [] 50 120).duration) =
      some ((analyze_route_glare (fun _ _ _ _ => 0) (fun _ _ _ => 0)
        (fun _ _ _ => 0)
        (([⟨[⟨0, 0⟩, ⟨0, 1⟩], 100, 60⟩] : List RouteSegment) ++
          RouteSegment.mk [] 50 120 :: ([] : List RouteSegment))
        ⟨0, some 0⟩).statistics.arrival_time)) :=
  ⟨⟨rfl, by decide, by decide⟩,
    empty_segment_skipped_but_counted (fun _ _ _ _ => 0) (fun _ _ _ => 0)
      (fun _ _ _ => 0) [⟨[⟨0, 0⟩, ⟨0, 1⟩], 100, 60⟩] [] ⟨[], 50, 120⟩
      ⟨0, some 0⟩ rfl (by decide) (by decide)⟩

end Beamer
